import Mathlib

set_option autoImplicit false

/-!
Shallow embedding of the `pijng/result` Go library.

The repository carries several incremental revisions of the same
`Result` container:

* `Rev0` embeds `src/unnamed/part_000` (the reflection-tagged
  `Result[T]` with the unified constructor `New`);
* `Rev1` embeds the first revision in `src/result.go` (lines 1-242):
  `Result[T, any]` whose `value` field is a pointer and whose `err`
  field is the nilable `error` interface;
* `Rev2` embeds the second revision in `src/result.go` (lines 243-471):
  `Result[T, E]` with two pointer payloads and a `strict` flag;
* `Rev3` embeds the third revision in `src/result.go` (lines 472-724),
  structurally the same as `Rev2` but with the discriminant checks
  inlined and an `IsErrAnd` that compares pointers.

Modelling conventions, uniform across the namespaces:

* a Go pointer field (`*T`) or nilable interface value is an
  `Option`; `none` is the nil pointer;
* the zero value of a Go type `T` is `(default : T)` via `Inhabited`;
* a variadic `config ...C` parameter is a `List C`;
* an operation that can dereference a nil pointer (a Go runtime panic)
  returns an `Option`, `none` being the panic; `Rev2.Unwrap`
  distinguishes its two abnormal outcomes with a dedicated type;
* in `Rev3`, where pointer identity is compared, a pointer is the pair
  of its allocation address (a `Nat`) and its pointee.
-/

namespace Rev0

/-- Variant tags of `src/unnamed/part_000`: the file declares the two
marker types `isOk` and `isErr` and stores `new(isOk)` or `new(isErr)`
in the `variant` field; `Match()` returns `reflect.TypeOf(r.variant)`.
The runtime type identity collapses to this two-value tag. -/
inductive Variant where
  | isOk
  | isErr
deriving DecidableEq

/-- Result of `src/unnamed/part_000` lines 20-24: `value T` is stored by
value (zero value of `T` when the struct literal omits it), `err` is the
nilable `error` interface, `variant` the marker described above. -/
structure Result (T E : Type) where
  value : T
  err : Option E
  variant : Variant
deriving DecidableEq

variable {T E : Type}

/-- Constructor `ok` of part_000 lines 93-95: value populated, `err`
omitted (nil), variant tag `isOk`. -/
def ok (value : T) : Result T E :=
  ⟨value, none, Variant.isOk⟩

/-- Constructor `err` of part_000 lines 97-99: `value` omitted from the
struct literal, hence the zero value of `T`; variant tag `isErr`. -/
def err [Inhabited T] (rErr : E) : Result T E :=
  ⟨default, some rErr, Variant.isErr⟩

/-- Unified constructor `New` of part_000 lines 38-44: a non-nil error
dispatches to `err` (discarding `value`), otherwise to `ok`. -/
def New [Inhabited T] (value : T) (rError : Option E) : Result T E :=
  match rError with
  | some e => err e
  | none => ok value

/-- Accessor `Value` of part_000 lines 64-66. -/
def Result.Value (r : Result T E) : T :=
  r.value

/-- Accessor `Error` of part_000 lines 69-71. -/
def Result.Error (r : Result T E) : Option E :=
  r.err

/-- Method `Match` of part_000 lines 59-61: returns the runtime type of
the stored variant marker, i.e. the tag. -/
def Result.Match (r : Result T E) : Variant :=
  r.variant

/-- Method `Unwrap` of part_000 lines 89-91: the pair of `Value` and
`Error`. -/
def Result.Unwrap (r : Result T E) : T × Option E :=
  (r.Value, r.Error)

end Rev0

namespace Rev1

/-- Result of `src/result.go` lines 16-19 (first revision):
`value *T` is a pointer, `err` the nilable `error` interface whose
dynamic payload has type `E` here. -/
structure Result (T E : Type) where
  value : Option T
  err : Option E
deriving DecidableEq

variable {T E U : Type}

/-- Constructor `ok` of lines 236-238: `err` omitted (nil). -/
def ok (value : T) : Result T E :=
  ⟨some value, none⟩

/-- Constructor `err` of lines 240-242: `value` omitted (nil pointer). -/
def err (rErr : E) : Result T E :=
  ⟨none, some rErr⟩

/-- Exported constructor `Ok` of lines 25-27. -/
def Ok (value : T) : Result T E :=
  ok value

/-- Exported constructor `Err` of lines 33-35. -/
def Err (rErr : E) : Result T E :=
  err rErr

/-- Constructor `newResult` of lines 39-41: stores the value pointer and
whatever error (possibly nil) it is handed. -/
def newResult (value : T) (rError : Option E) : Result T E :=
  ⟨some value, rError⟩

/-- Method `innerValue` of lines 63-69: dereferences the value pointer,
returning the zero value of `T` when it is nil. -/
def Result.innerValue [Inhabited T] (r : Result T E) : T :=
  r.value.getD default

/-- Method `innerError` of lines 71-77: returns `r.err` (nil begets
nil). -/
def Result.innerError (r : Result T E) : Option E :=
  r.err

/-- Method `isErr` of lines 79-81: the error is non-nil. -/
def Result.isErr (r : Result T E) : Bool :=
  r.err.isSome

/-- Method `isOk` of lines 83-85: the error is nil. -/
def Result.isOk (r : Result T E) : Bool :=
  r.err.isNone

/-- Method `And` of lines 91-101: returns the receiver on a contained
error, else `newR` on `newR`'s error, else the receiver again. -/
def Result.And (r newR : Result T E) : Result T E :=
  if r.isErr then r
  else if newR.isErr then newR
  else r

/-- Method `AndThen` of lines 107-113: the receiver on a contained
error, else `f` applied to the inner value. -/
def Result.AndThen [Inhabited T] (r : Result T E) (f : T → Result T E) : Result T E :=
  if r.isErr then r
  else f r.innerValue

/-- Method `IsErrAnd` of lines 121-127: false when ok, else the
predicate applied to `innerError()` (a nilable error value). -/
def Result.IsErrAnd (r : Result T E) (f : Option E → Bool) : Bool :=
  if r.isOk then false
  else f r.innerError

/-- Function `Map` of lines 146-150: applies `okF` to the inner value
unconditionally and rebuilds with `newResult`, keeping the inner
error. -/
def Map [Inhabited T] (r : Result T E) (okF : T → U) : Result U E :=
  newResult (okF r.innerValue) r.innerError

/-- Method `UnwrapOr` of lines 220-226: the inner value when ok, else
the supplied default. -/
def Result.UnwrapOr [Inhabited T] (r : Result T E) (rDefault : T) : T :=
  if r.isOk then r.innerValue
  else rDefault

/-- Method `Unwrap` of lines 216-218: the pair of inner value and inner
error, unconditionally. -/
def Result.Unwrap [Inhabited T] (r : Result T E) : T × Option E :=
  (r.innerValue, r.innerError)

end Rev1

namespace Rev2

/-- Result of `src/result.go` lines 254-258 (second revision): two
pointer payloads `value *T` and `err *E`, plus the `strict` flag. -/
structure Result (T E : Type) where
  value : Option T
  err : Option E
  strict : Bool
deriving DecidableEq

/-- Config struct `C` of lines 261-264. -/
structure C where
  Strict : Bool
deriving DecidableEq

/-- Function `extractStrict` of lines 465-471: the first config's
`Strict` field, or false when no config was passed. -/
def extractStrict (config : List C) : Bool :=
  match config with
  | [] => false
  | c :: _ => c.Strict

/-- Outcomes of `Rev2.Unwrap`: the strict-mode panic of line 431, a nil
pointer dereference inside `innerValue`or `innerError` (lines 308-314),
or a normal return of the two dereferenced payloads. -/
inductive UnwrapOutcome (T E : Type) where
  | strictPanic
  | nilPanic
  | ret (value : T) (rErr : E)
deriving DecidableEq

variable {T E U : Type}

/-- Constructor `ok` of lines 457-459: `err` omitted (nil pointer). -/
def ok (value : T) (config : List C) : Result T E :=
  ⟨some value, none, extractStrict config⟩

/-- Constructor `err` of lines 461-463: `value` omitted (nil pointer). -/
def err (rErr : E) (config : List C) : Result T E :=
  ⟨none, some rErr, extractStrict config⟩

/-- Exported constructor `Ok` of lines 270-272; note its Go result type
is `Result[T, T]`. -/
def Ok (value : T) (config : List C) : Result T T :=
  ok value config

/-- Exported constructor `Err` of lines 278-280, of Go type
`Result[E, E]`. -/
def Err (rErr : E) (config : List C) : Result E E :=
  err rErr config

/-- Constructor `newResult` of lines 284-286: stores BOTH pointers
(`&value` and `&rError`), so its `err` field is never nil. -/
def newResult (value : T) (rError : E) (config : List C) : Result T E :=
  ⟨some value, some rError, extractStrict config⟩

/-- Method `isErr` of lines 316-318: the error pointer is non-nil. -/
def Result.isErr (r : Result T E) : Bool :=
  r.err.isSome

/-- Method `isOk` of lines 320-322 reads `return r.isOk()`: it calls
itself with unchanged arguments. This is its fuel-indexed unfolding:
each recursive call consumes one unit of fuel (one stack frame), and
`none` means no boolean was produced within that depth — in Go, the
recursion overflows the stack for every finite stack size. -/
def Result.isOkFuel (r : Result T E) : Nat → Option Bool
  | 0 => none
  | n + 1 => r.isOkFuel n

/-- Method `IsErr` of lines 353-355. -/
def Result.IsErr (r : Result T E) : Bool :=
  r.isErr

/-- Method `IsStrict` of lines 453-455. -/
def Result.IsStrict (r : Result T E) : Bool :=
  r.strict

/-- Method `And` of lines 328-338: a contained error is re-wrapped with
`err` (no config, so non-strict); else `newR`'s error likewise; else
`newR`'s dereferenced value re-wrapped with `ok` (no config). The
`Option.map` renders the `innerValue`/`innerError` dereference: `none`
is the nil-pointer panic. -/
def Result.And (r newR : Result T E) : Option (Result T E) :=
  if r.isErr then r.err.map (fun e => Rev2.err e [])
  else if newR.isErr then newR.err.map (fun e => Rev2.err e [])
  else newR.value.map (fun v => Rev2.ok v [])

/-- Method `AndThen` of lines 344-350: a contained error is re-wrapped
with `err` (no config); else `f` applied to the dereferenced value. -/
def Result.AndThen (r : Result T E) (f : T → Result T E) : Option (Result T E) :=
  if r.isErr then r.err.map (fun e => Rev2.err e [])
  else r.value.map f

/-- Function `Map` of lines 383-387: applies `okF` to the dereferenced
value unconditionally (`none` when the value pointer is nil, the Go
panic) and rebuilds a struct literal sharing the `err` pointer, with
`strict` omitted (false). -/
def Map (r : Result T E) (okF : T → U) : Option (Result U E) :=
  r.value.map (fun v => ⟨some (okF v), r.err, false⟩)

/-- Function `Match` of lines 300-306: on a contained error, `errF`
applied to the dereferenced error; else `okF` applied to the
dereferenced value; `none` is the nil-pointer panic. -/
def Match (r : Result T E) (okF : T → U) (errF : E → U) : Option U :=
  if r.isErr then r.err.map errF
  else r.value.map okF

/-- Method `Unwrap` of lines 429-434: panics when strict; otherwise
dereferences both pointers (value first), so any nil pointer is the
nil-dereference panic. -/
def Result.Unwrap (r : Result T E) : UnwrapOutcome T E :=
  if r.strict then UnwrapOutcome.strictPanic
  else
    match r.value, r.err with
    | some v, some e => UnwrapOutcome.ret v e
    | _, _ => UnwrapOutcome.nilPanic

/-- Method `UnwrapOr` of lines 436-442: it branches on `r.isOk()`, the
self-recursive method above, so its own outcome is fuel-indexed as
well: `none` means no value was returned within the given stack
depth. The two branches after the test transcribe lines 437-441. -/
def Result.UnwrapOrFuel (r : Result T E) (rDefault : T) (fuel : Nat) : Option T :=
  match r.isOkFuel fuel with
  | none => none
  | some true => r.value
  | some false => some rDefault

end Rev2

namespace Rev3

/-- Result of `src/result.go` lines 483-487 (third revision). The
revision compares pointers by identity in `IsErrAnd`, so a pointer here
is modelled as the pair of its allocation address and its pointee;
`none` is the nil pointer. -/
structure Result (T E : Type) where
  value : Option (Nat × T)
  err : Option (Nat × E)
  strict : Bool
deriving DecidableEq

/-- Config struct `C` of lines 490-497. -/
structure C where
  Strict : Bool
deriving DecidableEq

/-- Inlined config inspection shared by `ok`, `err` and `newResult`
(lines 707-711, 717-721, 528-532): the first config's `Strict`, default
false. -/
def strictOf (config : List C) : Bool :=
  match config with
  | [] => false
  | c :: _ => c.Strict

variable {T E : Type}

/-- Constructor `ok` of lines 706-714: the value is allocated at
`addr`; the error pointer is nil. -/
def ok (addr : Nat) (value : T) (config : List C) : Result T E :=
  ⟨some (addr, value), none, strictOf config⟩

/-- Constructor `err` of lines 716-724: the error is allocated at
`addr`; the value pointer is nil. -/
def err (addr : Nat) (rErr : E) (config : List C) : Result T E :=
  ⟨none, some (addr, rErr), strictOf config⟩

/-- Method `IsErr` of lines 602-604: the error pointer is non-nil. -/
def Result.IsErr (r : Result T E) : Bool :=
  r.err.isSome

/-- Method `IsOk` of lines 616-618: the error pointer is nil. -/
def Result.IsOk (r : Result T E) : Bool :=
  r.err.isNone

/-- Method `IsErrAnd` of lines 607-613: false when the error pointer is
nil, else the pointer comparison `r.err == &rErr`. The parameter `rErr`
is received by value, so `&rErr` is the address of the fresh copy in
the callee's frame — `argAddr` here, supplied by the call; Go pointer
equality compares the addresses alone, never the pointees. -/
def Result.IsErrAnd (r : Result T E) (argAddr : Nat) (rErr : E) : Bool :=
  match r.err with
  | none => false
  | some (a, _) => a == argAddr

/-- Method `innerError` of lines 564-571: dereferences the error
pointer (the nil-check in the source is commented out), so `none` is
the nil-dereference panic and `some` the pointee. -/
def Result.innerError (r : Result T E) : Option E :=
  r.err.map Prod.snd

end Rev3

theorem Rev2.Result.isOkFuel_eq_none {T E : Type} (r : Rev2.Result T E) :
    ∀ n : Nat, r.isOkFuel n = none
  | 0 => rfl
  | n + 1 => r.isOkFuel_eq_none n

/-- Claim C1, counterexample. The claim says that on a failure-variant
receiver `Map` never invokes `f`. In the first revision the output of
`Map` depends on `f` (so `f` is invoked — here on the zero value 0 of
`Nat`), and in the second revision `Map` on an `Err`-built receiver
dereferences the nil value pointer and panics instead of returning a
Result. -/
theorem c1_counterexample :
    Rev1.Map (Rev1.err (7 : Nat) : Rev1.Result Nat Nat) (fun _ => (1 : Nat)) ≠
      Rev1.Map (Rev1.err (7 : Nat) : Rev1.Result Nat Nat) (fun _ => (2 : Nat)) ∧
    Rev2.Map (Rev2.err (7 : Nat) [] : Rev2.Result Nat Nat) (fun x => x + 1) = none := by
  constructor
  · decide
  · rfl

/-- Claim C1, amended. For every failure-variant receiver, `Map`
propagates the failure payload unchanged (`Map(r, f).Error() ==
r.Error()`), but `f` IS invoked: revision 1 applies it to the
receiver's inner value — the zero value of `T` on an `Err`-built
receiver — and stores its output as the new success-side value, while
revision 2 panics on an `Err`-built receiver by dereferencing the nil
value pointer before `f` can produce a Result. -/
theorem c1_amended (T E U : Type) [Inhabited T] (val : Option T) (e : E) (f : T → U) :
    (Rev1.Map (⟨val, some e⟩ : Rev1.Result T E) f).innerError =
      (⟨val, some e⟩ : Rev1.Result T E).innerError ∧
    Rev1.Map (Rev1.err e : Rev1.Result T E) f = ⟨some (f default), some e⟩ ∧
    Rev2.Map (Rev2.err e [] : Rev2.Result T E) f = none := by
  exact ⟨rfl, rfl, rfl⟩

/-- Claim C2, counterexample. The claim says that with `strict = false`,
`Unwrap()` never panics. An `Ok`-built Result of revision 2 is
non-strict, yet its `Unwrap` panics: `innerError()` dereferences the
nil `err` pointer. -/
theorem c2_counterexample :
    (Rev2.Ok (1 : Nat) []).IsStrict = false ∧
    (Rev2.Ok (1 : Nat) []).Unwrap = Rev2.UnwrapOutcome.nilPanic := by
  exact ⟨rfl, rfl⟩

/-- Claim C2, amended. On a strict Result, `Unwrap` always raises the
strict-mode panic (nothing a prior discriminant check could change:
Results are immutable values and `IsErr`/`Match` ignore and do not
clear the flag, as the strict-invariance equations state); `IsErr()`
and `Match()` themselves never raise the strict panic, and `Match` on
constructor-built Results returns the selected branch normally. With
`strict = false`, `Unwrap` never raises the strict panic, and returns
the two payloads exactly when both pointers are set (as `newResult`
builds them); on `ok`/`err`-built Results it panics with a nil
dereference instead. In revision 1, which has no strict flag, `Unwrap`
is total and never panics. -/
theorem c2_amended (T E U : Type) [Inhabited T] (val : Option T) (er : Option E)
    (v : T) (e : E) (okF : T → U) (errF : E → U) (st : Bool) (cfg : List Rev2.C) :
    (⟨val, er, true⟩ : Rev2.Result T E).Unwrap = Rev2.UnwrapOutcome.strictPanic ∧
    (⟨val, er, st⟩ : Rev2.Result T E).IsErr = (⟨val, er, false⟩ : Rev2.Result T E).IsErr ∧
    Rev2.Match (⟨val, er, st⟩ : Rev2.Result T E) okF errF =
      Rev2.Match (⟨val, er, false⟩ : Rev2.Result T E) okF errF ∧
    Rev2.Match (Rev2.ok v cfg : Rev2.Result T E) okF errF = some (okF v) ∧
    Rev2.Match (Rev2.err e cfg : Rev2.Result T E) okF errF = some (errF e) ∧
    (⟨some v, some e, false⟩ : Rev2.Result T E).Unwrap = Rev2.UnwrapOutcome.ret v e ∧
    (⟨some v, none, false⟩ : Rev2.Result T E).Unwrap = Rev2.UnwrapOutcome.nilPanic ∧
    (⟨none, some e, false⟩ : Rev2.Result T E).Unwrap = Rev2.UnwrapOutcome.nilPanic ∧
    (⟨val, er⟩ : Rev1.Result T E).Unwrap = (val.getD default, er) := by
  exact ⟨rfl, rfl, rfl, rfl, rfl, rfl, rfl, rfl, rfl⟩

/-- Claim C3. The claim is right and revision 1's `And` is wrong on the
success/success path: its own doc comment says it returns the passed
`newR`, but the code returns the receiver, so `Ok(1).And(Ok(2))` is a
success carrying 1 where the claim (and revision 2, which rebuilds from
`newR`'s value) produces 2. The remaining conjuncts prove the claimed
precedence on revision 2: receiver's failure wins, then `newR`'s
failure, else success with `newR`'s payload. -/
theorem c3_theorem (T E : Type) (a b : E) (x y : T) (g1 g2 : List Rev2.C) :
    (Rev1.Ok (1 : Nat) : Rev1.Result Nat Nat).And (Rev1.Ok 2) = Rev1.Ok 1 ∧
    (Rev1.Ok (1 : Nat) : Rev1.Result Nat Nat).And (Rev1.Ok 2) ≠ Rev1.Ok 2 ∧
    (Rev2.err a g1 : Rev2.Result T E).And (Rev2.err b g2) = some (Rev2.err a []) ∧
    (Rev2.ok x g1 : Rev2.Result T E).And (Rev2.err b g2) = some (Rev2.err b []) ∧
    (Rev2.ok x g1 : Rev2.Result T E).And (Rev2.ok y g2) = some (Rev2.ok y []) := by
  refine ⟨rfl, by decide, rfl, rfl, rfl⟩

/-- Claim C4. Revision 2's lower-case `isOk` calls itself with
unchanged arguments, so `IsOk()` (and everything built on it) never
returns a boolean: for every Result and every stack depth the
fuel-indexed unfolding produces nothing, contradicting the method's own
doc comment ("IsOk returns true if Result has no error") and the
claim's termination requirement. Revision 3, which inlines the nil
check, satisfies the rest of the claim: for every Result, however
constructed (the zero-value struct included), `IsOk` and `IsErr`
terminate and exactly one of them is true. -/
theorem c4_theorem (T E : Type) (r2 : Rev2.Result T E) (n : Nat) (r3 : Rev3.Result T E) :
    r2.isOkFuel n = none ∧ r3.IsOk = !r3.IsErr := by
  refine ⟨r2.isOkFuel_eq_none n, ?_⟩
  rcases r3 with ⟨v3, e3, s3⟩
  cases e3 <;> rfl

/-- Claim C5. The unified constructor `New` of part_000 with a non-nil
error dispatches to the failure constructor, discarding the value
argument entirely: for every `v` and non-nil `e`, the Result's variant
tag matches the failure case, its failure payload is exactly `e`, and
the success accessor `Value` returns the zero value of `T`. -/
theorem c5_theorem (T E : Type) [Inhabited T] (v : T) (e : E) :
    (Rev0.New v (some e) : Rev0.Result T E).Match = Rev0.Variant.isErr ∧
    (Rev0.New v (some e) : Rev0.Result T E).Error = some e ∧
    (Rev0.New v (some e) : Rev0.Result T E).Value = (default : T) := by
  exact ⟨rfl, rfl, rfl⟩

/-- Claim C6. The unified constructor `New` of part_000 with a nil
error dispatches to the success constructor: for every `v`, the
Result's variant tag matches the success case, the success payload
equals the supplied value, and the failure accessor `Error` reports
absence. -/
theorem c6_theorem (T E : Type) [Inhabited T] (v : T) :
    (Rev0.New v (none : Option E)).Match = Rev0.Variant.isOk ∧
    (Rev0.New v (none : Option E)).Value = v ∧
    (Rev0.New v (none : Option E)).Error = none := by
  exact ⟨rfl, rfl, rfl⟩

/-- Claim C7. `AndThen` short-circuits on failure in both revisions
that define it: a failure-variant receiver is propagated carrying its
failure payload (revision 1 returns the receiver itself, revision 2
re-wraps the same payload with `err`), the result does not depend on
`f` (so `f` is never invoked), and a success-variant receiver returns
`f` applied once to the success payload, verbatim. -/
theorem c7_theorem (T E : Type) [Inhabited T] (val : Option T) (e : E) (v : T) (st : Bool)
    (f g : T → Rev1.Result T E) (f2 : T → Rev2.Result T E) :
    (⟨val, some e⟩ : Rev1.Result T E).AndThen f = ⟨val, some e⟩ ∧
    (⟨val, some e⟩ : Rev1.Result T E).AndThen f = (⟨val, some e⟩ : Rev1.Result T E).AndThen g ∧
    (Rev1.ok v : Rev1.Result T E).AndThen f = f v ∧
    (⟨val, some e, st⟩ : Rev2.Result T E).AndThen f2 = some (Rev2.err e []) ∧
    (⟨some v, none, st⟩ : Rev2.Result T E).AndThen f2 = some (f2 v) := by
  exact ⟨rfl, rfl, rfl, rfl, rfl⟩

/-- Claim C8. The claim is right and revision 2's `UnwrapOr` is wrong:
it branches on the self-recursive `isOk()`, so it never returns — for
every Result, default and stack depth, the fuel-indexed unfolding
produces no value, against the claim's "always terminates" (and
against revisions 1 and 3, where the discriminant check is sound).
Revision 1 behaves exactly as claimed: a failure-variant receiver
yields the default unconditionally and a success-variant receiver
yields its payload. -/
theorem c8_theorem (T E : Type) [Inhabited T] (val : Option T) (e : E) (v d : T)
    (r2 : Rev2.Result T E) (d2 : T) (n : Nat) :
    r2.UnwrapOrFuel d2 n = none ∧
    (⟨val, some e⟩ : Rev1.Result T E).UnwrapOr d = d ∧
    (Rev1.ok v : Rev1.Result T E).UnwrapOr d = v := by
  refine ⟨?_, rfl, rfl⟩
  unfold Rev2.Result.UnwrapOrFuel
  rw [r2.isOkFuel_eq_none n]

/-- Claim C9. The claim is right for revision 1's predicate form
(false on success without consulting the predicate, the predicate's
verdict on the payload on failure), but revision 3's `IsErrAnd` is
wrong: it compares the stored error pointer with the address of its
own by-value parameter (`r.err == &rErr`), a fresh allocation distinct
from every pointer stored before the call, so it returns false even
when the contained payload equals the argument — here a failure Result
holding 5 at address 0, queried with 5 freshly copied to address 1.
The last conjunct shows the comparison never reads the argument's
payload at all. -/
theorem c9_theorem (T E : Type) (e : E) (p : Option E → Bool) (v : T)
    (r3 : Rev3.Result T E) (a : Nat) (x y : E) :
    (Rev1.err e : Rev1.Result T E).IsErrAnd p = p (some e) ∧
    (Rev1.ok v : Rev1.Result T E).IsErrAnd p = false ∧
    (Rev3.err 0 (5 : Nat) [] : Rev3.Result Nat Nat).IsErr = true ∧
    (Rev3.err 0 (5 : Nat) [] : Rev3.Result Nat Nat).innerError = some 5 ∧
    (Rev3.err 0 (5 : Nat) [] : Rev3.Result Nat Nat).IsErrAnd 1 5 = false ∧
    r3.IsErrAnd a x = r3.IsErrAnd a y := by
  refine ⟨rfl, rfl, rfl, rfl, rfl, ?_⟩
  rcases r3 with ⟨v3, e3, s3⟩
  cases e3 with
  | none => rfl
  | some ptr => rfl

/-- Claim C10, counterexample. The claim's consequence fails: the
Result derived by `And` from a strict receiver is indeed non-strict,
but calling `Unwrap()` on it still panics — with a nil-pointer
dereference, since the derived `ok`-built Result carries a nil error
pointer. -/
theorem c10_counterexample :
    (Rev2.ok (1 : Nat) [⟨true⟩] : Rev2.Result Nat Nat).IsStrict = true ∧
    (Rev2.ok (1 : Nat) [⟨true⟩] : Rev2.Result Nat Nat).And (Rev2.ok 2 []) =
      some (Rev2.ok 2 []) ∧
    (Rev2.ok (2 : Nat) [] : Rev2.Result Nat Nat).IsStrict = false ∧
    (Rev2.ok (2 : Nat) [] : Rev2.Result Nat Nat).Unwrap = Rev2.UnwrapOutcome.nilPanic := by
  exact ⟨rfl, rfl, rfl, rfl⟩

/-- Claim C10, amended. Strictness is indeed not propagated: every
Result produced by `And` or by `AndThen`'s failure path is built by
the internal `ok`/`err` helpers with no config, so its `IsStrict()` is
false whatever the operands' flags, and `Unwrap()` on it never raises
the strict-mode panic; it does, however, panic with a nil dereference,
because those helpers leave the absent side's pointer nil. -/
theorem c10_amended (T E : Type) (val val2 : Option T) (e : E) (x y : T)
    (st st2 : Bool) (anyR : Rev2.Result T E) (f : T → Rev2.Result T E) :
    (Rev2.err e [] : Rev2.Result T E).IsStrict = false ∧
    (Rev2.ok y [] : Rev2.Result T E).IsStrict = false ∧
    (⟨val, some e, st⟩ : Rev2.Result T E).And anyR = some (Rev2.err e []) ∧
    (⟨some x, none, st⟩ : Rev2.Result T E).And (⟨some y, none, st2⟩ : Rev2.Result T E) =
      some (Rev2.ok y []) ∧
    (⟨some x, none, st⟩ : Rev2.Result T E).And (⟨val2, some e, st2⟩ : Rev2.Result T E) =
      some (Rev2.err e []) ∧
    (⟨val, some e, st⟩ : Rev2.Result T E).AndThen f = some (Rev2.err e []) ∧
    (Rev2.err e [] : Rev2.Result T E).Unwrap ≠ Rev2.UnwrapOutcome.strictPanic ∧
    (Rev2.err e [] : Rev2.Result T E).Unwrap = Rev2.UnwrapOutcome.nilPanic ∧
    (Rev2.ok y [] : Rev2.Result T E).Unwrap = Rev2.UnwrapOutcome.nilPanic := by
  refine ⟨rfl, rfl, rfl, rfl, rfl, rfl, ?_, rfl, rfl⟩
  intro h
  exact Rev2.UnwrapOutcome.noConfusion h
